import Mathlib

/-!
Verification of the timetable scraper/parser core (src/parser.py, src/scraper.py)
of polarhive/timetolive.

Shallow embedding notes.
* Python strings are Lean `String`s; character-level work happens on `String.data`
  (`List Char`), with hand-rolled, kernel-reducible helpers so every definition
  evaluates under `decide`/`rfl`.
* Python dicts are association lists with insertion order preserved; an update on
  an existing key overwrites in place (`dictUpd`), exactly as CPython dicts behave.
* BeautifulSoup-parsed pages are modelled as a structure (`Html`) holding the
  document-order tag lists the code queries (`input`, `meta`, `form`,
  `span.lbl-title-light` label/sibling pairs, inline script strings) together
  with the raw page text used by the regex branches.  `soup.find(tag, attrs)`
  becomes `List.find?` on the corresponding list.
* `re` patterns used by the code are embedded as explicit leftmost-match scanners
  over `List Char` (`scanVarAssign`, `scanJsCsrf`, `scanUuid`); `\s` is the ASCII
  whitespace class (the pages involved are ASCII).
* JSON is modelled by the inductive `J` with a fuel-based `jsonParse`
  (`json.loads`); numbers are integers, which covers the integer order keys and
  status flags the portal embeds (floats/NaN are outside the modelled fragment).
  Dynamically-typed traversal of decoded JSON inside `build_schedule` is
  modelled by an up-front decode into typed structures (`decodeTemplates`,
  `decodeDays`, `decodeTimeTable`); a decode failure plays the role of the
  `TypeError`/`AttributeError` the Python code would raise on ill-shaped data.
* Network I/O is modelled by environments (`LoginEnv`, `FetchEnv`) that supply
  the responses and cookie-jar snapshots each request would have produced; a
  `none` response stands for a raised transport exception.
* The process-wide subject-mapping cache (`_load_subject_mapping`) is passed
  explicitly as the `Mapping` argument threaded through `build_schedule`.
-/

/-! ## Python string primitives -/

/-- ASCII whitespace, the set matched by `str.strip()` / `re` `\s` on ASCII text. -/
def isPyWs (c : Char) : Bool :=
  let n := c.toNat
  n == 32 || (9 ≤ n && n ≤ 13)

def isDigitChar (c : Char) : Bool :=
  48 ≤ c.toNat && c.toNat < 58

def digitVal (c : Char) : Nat := c.toNat - 48

def isHexChar (c : Char) : Bool :=
  isDigitChar c || ('a' ≤ c && c ≤ 'f') || ('A' ≤ c && c ≤ 'F')

/-- `needle` begins `hay` (list version of `str.startswith`). -/
def listStartsWith (needle hay : List Char) : Bool :=
  hay.take needle.length == needle

/-- Python `needle in hay` substring test. -/
def containsSub : List Char → List Char → Bool
  | hay, needle =>
    if listStartsWith needle hay then true
    else match hay with
      | [] => false
      | _ :: t => containsSub t needle

def strContains (s sub : String) : Bool := containsSub s.data sub.data

def asciiLower (c : Char) : Char :=
  if 'A' ≤ c && c ≤ 'Z' then Char.ofNat (c.toNat + 32) else c

/-- Python `str.lower()` (ASCII fragment). -/
def pyLower (s : String) : String := String.mk (s.data.map asciiLower)

/-- Python `str.strip()` (ASCII whitespace fragment). -/
def pyStrip (s : String) : String :=
  String.mk (((s.data.dropWhile isPyWs).reverse.dropWhile isPyWs).reverse)

/-- Python `str.rstrip(":")`. -/
def pyRstripColon (s : String) : String :=
  String.mk ((s.data.reverse.dropWhile (fun c => c == ':')).reverse)

/-- Python `entry.split("&&")`: split on the two-character separator, leftmost,
non-overlapping. -/
def splitAmp : List Char → List (List Char)
  | [] => [[]]
  | '&' :: '&' :: rest => [] :: splitAmp rest
  | c :: rest =>
    match splitAmp rest with
    | [] => [[c]]
    | p :: ps => (c :: p) :: ps

/-- First `'-'`-split of a character list: `some (before, after)` at the first
dash, `none` when no dash occurs.  Mirrors `val.split("-", 1)` guarded by
`"-" in val`. -/
def breakDash : List Char → Option (List Char × List Char)
  | [] => none
  | c :: rest =>
    if c == '-' then some ([], rest)
    else (breakDash rest).map (fun p => (c :: p.1, p.2))

/-- Truthiness of an optional Python string (`None` and `""` are falsy). -/
def pyTruthy : Option String → Bool
  | some s => s ≠ ""
  | none => false

/-- Python `a or b` on optional strings: `a` when truthy, otherwise `b` as-is. -/
def pyOrOpt (a b : Option String) : Option String :=
  if pyTruthy a then a else b

/-- Python `a or dflt` where `a` is an optional string and `dflt` a string. -/
def pyOrStr (a : Option String) (dflt : String) : String :=
  match a with
  | some s => if s ≠ "" then s else dflt
  | none => dflt

/-- Insertion-ordered dict update: overwrite in place when the key exists,
append otherwise (CPython dict assignment). -/
def dictUpd (m : List (String × String)) (k v : String) : List (String × String) :=
  if m.any (fun p => p.fst == k) then
    m.map (fun p => if p.fst == k then (k, v) else p)
  else m ++ [(k, v)]

def dictGet (m : List (String × String)) (k : String) : Option String :=
  (m.find? (fun p => p.fst == k)).map (·.snd)

/-- `"\n".join(parts)`. -/
def joinNL (parts : List String) : String :=
  String.mk (((parts.map (·.data)).intersperse ['\n']).flatten)

def pad2 (n : Nat) : String :=
  if n < 10 then "0" ++ toString n else toString n

/-! ## `datetime.strptime(s, "%I:%M:%S %p")` and `strftime("%I:%M %p")`

CPython's `_strptime` compiles the format to the regex
`(1[0-2]|0[1-9]|[1-9]):([0-5]\d|\d):(6[0-1]|[0-5]\d|\d)\s+(am|pm)` (case
insensitive on the am/pm literal, whitespace in the format matching `\s+`),
anchored at the start, and requires the whole string to be consumed.  The
alternations are tried left to right with backtracking; we reproduce that with
explicit candidate lists. -/

/-- Candidates for `%I` (12-hour clock), in regex alternation order. -/
def hourCands : List Char → List (Nat × List Char)
  | '1' :: d :: rest =>
    (if '0' ≤ d && d ≤ '2' then [(10 + digitVal d, rest)] else []) ++ [(1, d :: rest)]
  | '0' :: d :: rest =>
    if '1' ≤ d && d ≤ '9' then [(digitVal d, rest)] else []
  | c :: rest =>
    if '1' ≤ c && c ≤ '9' then [(digitVal c, rest)] else []
  | [] => []

/-- Candidates for `%M` (`[0-5]\d|\d`), in regex alternation order. -/
def minuteCands : List Char → List (Nat × List Char)
  | c1 :: c2 :: rest =>
    (if ('0' ≤ c1 && c1 ≤ '5') && isDigitChar c2
     then [(10 * digitVal c1 + digitVal c2, rest)] else []) ++
    (if isDigitChar c1 then [(digitVal c1, c2 :: rest)] else [])
  | [c1] => if isDigitChar c1 then [(digitVal c1, [])] else []
  | [] => []

/-- Candidates for `%S` (`6[0-1]|[0-5]\d|\d`), in regex alternation order. -/
def secondCands : List Char → List (Nat × List Char)
  | c1 :: c2 :: rest =>
    (if c1 == '6' && ('0' ≤ c2 && c2 ≤ '1')
     then [(60 + digitVal c2, rest)] else []) ++
    (if ('0' ≤ c1 && c1 ≤ '5') && isDigitChar c2
     then [(10 * digitVal c1 + digitVal c2, rest)] else []) ++
    (if isDigitChar c1 then [(digitVal c1, c2 :: rest)] else [])
  | [c1] => if isDigitChar c1 then [(digitVal c1, [])] else []
  | [] => []

def expectColon : List Char → Option (List Char)
  | ':' :: rest => some rest
  | _ => none

/-- One-or-more whitespace (`\s+`); greedy, no backtracking is needed because
what follows (`am`/`pm`) never starts with whitespace. -/
def expectWs1 : List Char → Option (List Char)
  | c :: rest => if isPyWs c then some (rest.dropWhile isPyWs) else none
  | [] => none

/-- `(am|pm)` case-insensitively; returns `true` for pm. -/
def expectAmPm : List Char → Option (Bool × List Char)
  | a :: m :: rest =>
    if asciiLower a == 'a' && asciiLower m == 'm' then some (false, rest)
    else if asciiLower a == 'p' && asciiLower m == 'm' then some (true, rest)
    else none
  | _ => none

def firstSome {α : Type} : List (Option α) → Option α
  | [] => none
  | some a :: _ => some a
  | none :: rest => firstSome rest

/-- Parse a full `"%I:%M:%S %p"` string; `some (hour12, minute, second, isPM)`
only when the whole input is consumed (CPython raises on unconverted data). -/
def parseTimeIMSp (s : String) : Option (Nat × Nat × Nat × Bool) :=
  firstSome ((hourCands s.data).map (fun hc =>
    (expectColon hc.2).bind (fun r1 =>
      firstSome ((minuteCands r1).map (fun mc =>
        (expectColon mc.2).bind (fun r2 =>
          firstSome ((secondCands r2).map (fun sc =>
            (expectWs1 sc.2).bind (fun r3 =>
              (expectAmPm r3).bind (fun ap =>
                if ap.2.isEmpty then some (hc.1, mc.1, sc.1, ap.1) else none))))))))))

/-- The 24-hour value `strptime` stores for `%I` combined with `%p`. -/
def hour24Of (h12 : Nat) (pm : Bool) : Nat :=
  if pm then (if h12 == 12 then 12 else h12 + 12)
  else (if h12 == 12 then 0 else h12)

/-- `t.strftime("%I:%M %p")` for a parsed time. -/
def strfIMp (t : Nat × Nat × Nat × Bool) : String :=
  let h24 := hour24Of t.1 t.2.2.2
  let h12 := if h24 % 12 == 0 then 12 else h24 % 12
  pad2 h12 ++ ":" ++ pad2 t.2.1 ++ " " ++ (if h24 < 12 then "AM" else "PM")

/-! ## `build_schedule` (src/parser.py lines 49-137) -/

/-- The cached external code→label lookup (`_load_subject_mapping`), passed
explicitly.  `mapGet m k` is `mapping.get(k, "")`. -/
abbrev Mapping : Type := List (String × String)

def mapGet (m : Mapping) (k : String) : String :=
  (dictGet m k).getD ""

/-- One decoded entry of `timeTableTemplateDetailsJson`, restricted to the
field types the portal emits (integer-or-absent order key and status flag,
string-or-absent labels and times).  `orderedBy` already carries the
`int(item.get("orderedBy", 0))` conversion. -/
structure TemplateItem where
  orderedBy : Int
  status : Option Int
  additionalInfo : Option String
  startTime : Option String
  endTime : Option String
deriving DecidableEq, Repr

structure Cell where
  subject : String
  code : String
  name : String
  sub_code : String
  faculties : List String
  raw : List String
deriving DecidableEq, Repr

structure SlotMeta where
  orderedBy : Int
  label : String
  status : Option Int
deriving DecidableEq, Repr

structure SlotEntry where
  slot : SlotMeta
  cells : List Cell
deriving DecidableEq, Repr

structure DayEntry where
  day : String
  slots : List SlotEntry
deriving DecidableEq, Repr

structure BuildResult where
  meta : List (String × String)
  schedule : List DayEntry
deriving DecidableEq, Repr

/-- The slot label computed per template item (parser.py lines 63-81). -/
def slotLabel (item : TemplateItem) : String :=
  if item.status = some 1 then
    pyOrStr item.additionalInfo "BREAK"
  else
    match item.additionalInfo with
    | some a =>
      if a ≠ "" then a
      else
        match item.startTime.bind (fun s => parseTimeIMSp s),
              item.endTime.bind (fun e => parseTimeIMSp e) with
        | some ts, some te => strfIMp ts ++ "-" ++ strfIMp te
        | _, _ => item.startTime.getD "" ++ "-" ++ item.endTime.getD ""
    | none =>
      match item.startTime.bind (fun s => parseTimeIMSp s),
            item.endTime.bind (fun e => parseTimeIMSp e) with
      | some ts, some te => strfIMp ts ++ "-" ++ strfIMp te
      | _, _ => item.startTime.getD "" ++ "-" ++ item.endTime.getD ""

def mkSlot (item : TemplateItem) : SlotMeta :=
  { orderedBy := item.orderedBy, label := slotLabel item, status := item.status }

/-- The keys of the `slots_by_order` dict, in insertion order (duplicates keep
their first position; their value is overwritten in place). -/
def slotKeys (tds : List TemplateItem) : List Int :=
  tds.foldl (fun ks it => if ks.contains it.orderedBy then ks else ks ++ [it.orderedBy]) []

/-- `slots_by_order[o]`: the last-written value for key `o`. -/
def slotLookup (tds : List TemplateItem) (o : Int) : Option SlotMeta :=
  (tds.reverse.find? (fun it => it.orderedBy == o)).map mkSlot

/-- Insertion sort, modelling Python `sorted` on the (unique) dict keys;
structurally recursive so it evaluates in the kernel. -/
def sortIns (x : Int) : List Int → List Int
  | [] => [x]
  | y :: ys => if x ≤ y then x :: y :: ys else y :: sortIns x ys

def sortInt : List Int → List Int
  | [] => []
  | x :: xs => sortIns x (sortInt xs)

/-- `sorted(slots_by_order.keys())` filtered to order keys `≤ 9`
(parser.py lines 90-92). -/
def retainedKeys (tds : List TemplateItem) : List Int :=
  (sortInt (slotKeys tds)).filter (fun k => k ≤ 9)

/-- Payload of a tagged entry: `parts[-1]` of `entry.split("&&")` (with the
source's vacuous non-empty guard mirrored). -/
def entryPayload (e : String) : String :=
  match (splitAmp e.data).getLast? with
  | some v => String.mk v
  | none => e

def isSubjectEntry (e : String) : Bool := listStartsWith "ttSubject".data e.data

def isFacultyEntry (e : String) : Bool := listStartsWith "ttFaculty".data e.data

/-- The fresh cell opened by a `ttSubject`-tagged entry
(parser.py lines 108-125). -/
def mkSubjectCell (mapping : Mapping) (e : String) : Cell :=
  let val := entryPayload e
  let cn :=
    match breakDash val.data with
    | some p => (String.mk p.1, String.mk p.2)
    | none => (val, "")
  { subject := val, code := cn.1, name := cn.2,
    sub_code := mapGet mapping cn.1, faculties := [], raw := [e] }

/-- Appending a `ttFaculty` entry to the open cell (parser.py lines 126-130). -/
def addFaculty (c : Cell) (e : String) : Cell :=
  { c with faculties := c.faculties ++ [entryPayload e], raw := c.raw ++ [e] }

/-- One step of the cell-assembly loop over a matched entry list; the state is
(closed cells so far, currently open cell). -/
def cellStep (mapping : Mapping) (st : List Cell × Option Cell) (e : String) :
    List Cell × Option Cell :=
  if isSubjectEntry e then
    (st.1 ++ st.2.toList, some (mkSubjectCell mapping e))
  else if isFacultyEntry e && st.2.isSome then
    (st.1, st.2.map (fun c => addFaculty c e))
  else st

/-- Processing one matched subject-table entry list, extending the cells already
collected for this slot (parser.py lines 105-132). -/
def processEntries (mapping : Mapping) (cells : List Cell) (v : List String) : List Cell :=
  let st := v.foldl (cellStep mapping) (cells, none)
  st.1 ++ st.2.toList

/-- `re.fullmatch` of `ttDivText_{day_idx}_{ordered}_[0-9]+` against a key. -/
def keyMatches (dayIdx : Nat) (ordered : Int) (k : String) : Bool :=
  let pre := ("ttDivText_" ++ toString dayIdx ++ "_" ++ toString ordered ++ "_").data
  listStartsWith pre k.data &&
    (let rest := k.data.drop pre.length
     !rest.isEmpty && rest.all isDigitChar)

/-- The decoded `timeTableJson`: an insertion-ordered dict from keys to tagged
string lists. -/
abbrev TimeTable : Type := List (String × List String)

/-- The cells of one (day, order) slot: every subject-table entry whose key
fullmatches the pattern contributes, in dict iteration (= insertion) order
(parser.py lines 99-132). -/
def slotCells (mapping : Mapping) (tt : TimeTable) (dayIdx : Nat) (ordered : Int) :
    List Cell :=
  tt.foldl
    (fun cs kv => if keyMatches dayIdx ordered kv.fst then processEntries mapping cs kv.snd else cs)
    []

/-- `build_schedule(meta, template_details, days, tt_json)`
(parser.py lines 49-137), with the subject mapping passed explicitly. -/
def build_schedule (mapping : Mapping) (meta : List (String × String))
    (template_details : List TemplateItem) (days : List String) (tt_json : TimeTable) :
    BuildResult :=
  let rk := retainedKeys template_details
  { meta := meta
    schedule := (List.range days.length).map (fun i =>
      { day := (days[i]?).getD ("Day " ++ toString (i + 1))
        slots := rk.map (fun o =>
          { slot := (slotLookup template_details o).getD
              { orderedBy := o, label := "", status := none }
            cells := slotCells mapping tt_json (i + 1) o }) }) }

/-- Accessor: slot `j` of day `i` (0-based positions). -/
def slotAt (r : BuildResult) (i j : Nat) : Option SlotEntry :=
  (r.schedule[i]?).bind (fun de => de.slots[j]?)

/-! ## Specification-side cell assembly (refinement target for C1)

`cellsSpecGo` transcribes the spec's description of the state machine: a
subject entry opens a new cell (appending the previously open one), a faculty
entry appends to the open cell and is ignored without one, and the last open
cell is appended at end-of-list. -/

def cellsSpecGo (mapping : Mapping) : Option Cell → List String → List Cell
  | cur, [] => cur.toList
  | cur, e :: es =>
    if isSubjectEntry e then
      cur.toList ++ cellsSpecGo mapping (some (mkSubjectCell mapping e)) es
    else if isFacultyEntry e && cur.isSome then
      cellsSpecGo mapping (cur.map (fun c => addFaculty c e)) es
    else
      cellsSpecGo mapping cur es

def cellsSpec (mapping : Mapping) (v : List String) : List Cell :=
  cellsSpecGo mapping none v

/-! ## JSON (`json.loads`) -/

inductive J where
  | null
  | bool (b : Bool)
  | num (n : Int)
  | str (s : String)
  | arr (elems : List J)
  | obj (fields : List (String × J))

def lbraceChar : Char := Char.ofNat 123

def rbraceChar : Char := Char.ofNat 125

/-- JSON whitespace (`' '`, `'\t'`, `'\n'`, `'\r'`). -/
def isJsonWs (c : Char) : Bool :=
  let n := c.toNat
  n == 32 || n == 9 || n == 10 || n == 13

def jpSkipWs (cs : List Char) : List Char := cs.dropWhile isJsonWs

def hexDigitVal (c : Char) : Option Nat :=
  let n := c.toNat
  if 48 ≤ n && n ≤ 57 then some (n - 48)
  else if 97 ≤ n && n ≤ 102 then some (n - 87)
  else if 65 ≤ n && n ≤ 70 then some (n - 55)
  else none

/-- JSON string body after the opening quote.  Strict mode: raw control
characters are rejected; `\uXXXX` maps straight to the code point (surrogate
pairs are outside the modelled fragment). -/
def jpStringBody : List Char → Option (List Char × List Char)
  | [] => none
  | '"' :: rest => some ([], rest)
  | '\\' :: e :: rest =>
    match e with
    | '"' => (jpStringBody rest).map (fun p => ('"' :: p.1, p.2))
    | '\\' => (jpStringBody rest).map (fun p => ('\\' :: p.1, p.2))
    | '/' => (jpStringBody rest).map (fun p => ('/' :: p.1, p.2))
    | 'b' => (jpStringBody rest).map (fun p => (Char.ofNat 8 :: p.1, p.2))
    | 'f' => (jpStringBody rest).map (fun p => (Char.ofNat 12 :: p.1, p.2))
    | 'n' => (jpStringBody rest).map (fun p => ('\n' :: p.1, p.2))
    | 'r' => (jpStringBody rest).map (fun p => ('\r' :: p.1, p.2))
    | 't' => (jpStringBody rest).map (fun p => ('\t' :: p.1, p.2))
    | 'u' =>
      match rest with
      | h1 :: h2 :: h3 :: h4 :: rest2 =>
        match hexDigitVal h1, hexDigitVal h2, hexDigitVal h3, hexDigitVal h4 with
        | some a, some b, some c, some d =>
          (jpStringBody rest2).map (fun p =>
            (Char.ofNat (((a * 16 + b) * 16 + c) * 16 + d) :: p.1, p.2))
        | _, _, _, _ => none
      | _ => none
    | _ => none
  | c :: rest =>
    if c.toNat < 32 then none
    else (jpStringBody rest).map (fun p => (c :: p.1, p.2))

/-- JSON integer literal: `-? (0 | [1-9][0-9]*)`, rejecting a following `.`,
`e` or `E` (floats are outside the modelled fragment). -/
def jpNumber (cs : List Char) : Option (Int × List Char) :=
  let core : List Char → Option (Nat × List Char) := fun ds =>
    match ds with
    | '0' :: rest => some (0, rest)
    | c :: rest =>
      if '1' ≤ c && c ≤ '9' then
        some ((rest.takeWhile isDigitChar).foldl (fun a d => a * 10 + digitVal d) (digitVal c),
              rest.dropWhile isDigitChar)
      else none
    | [] => none
  let signed : Option (Int × List Char) :=
    match cs with
    | '-' :: rest => (core rest).map (fun p => (-(p.1 : Int), p.2))
    | _ => (core cs).map (fun p => ((p.1 : Int), p.2))
  signed.bind (fun p =>
    match p.2 with
    | '.' :: _ => none
    | 'e' :: _ => none
    | 'E' :: _ => none
    | _ => some p)

/-- CPython's decoder builds the object dict pair by pair: a duplicate key keeps
its first position and takes its last value. -/
def jObjUpd (m : List (String × J)) (k : String) (v : J) : List (String × J) :=
  if m.any (fun p => p.fst == k) then
    m.map (fun p => if p.fst == k then (k, v) else p)
  else m ++ [(k, v)]

def jObjBuild (ps : List (String × J)) : List (String × J) :=
  ps.foldl (fun m p => jObjUpd m p.1 p.2) []


mutual

def jpVal : Nat → List Char → Option (J × List Char)
  | 0, _ => none
  | Nat.succ f, cs =>
    match jpSkipWs cs with
    | [] => none
    | c :: rest =>
      if c == 'n' then
        match rest with
        | 'u' :: 'l' :: 'l' :: r2 => some (J.null, r2)
        | _ => none
      else if c == 't' then
        match rest with
        | 'r' :: 'u' :: 'e' :: r2 => some (J.bool true, r2)
        | _ => none
      else if c == 'f' then
        match rest with
        | 'a' :: 'l' :: 's' :: 'e' :: r2 => some (J.bool false, r2)
        | _ => none
      else if c == '"' then
        (jpStringBody rest).map (fun p => (J.str (String.mk p.1), p.2))
      else if c == '[' then
        match jpSkipWs rest with
        | ']' :: r2 => some (J.arr [], r2)
        | r2 => (jpArrElems f r2).map (fun p => (J.arr p.1, p.2))
      else if c == lbraceChar then
        match jpSkipWs rest with
        | d :: r2 =>
          if d == rbraceChar then some (J.obj [], r2)
          else (jpObjFields f (d :: r2)).map (fun p => (J.obj (jObjBuild p.1), p.2))
        | [] => none
      else
        (jpNumber (c :: rest)).map (fun p => (J.num p.1, p.2))

def jpArrElems : Nat → List Char → Option (List J × List Char)
  | 0, _ => none
  | Nat.succ f, cs =>
    (jpVal f cs).bind (fun p =>
      match jpSkipWs p.2 with
      | ',' :: r2 => (jpArrElems f r2).map (fun q => (p.1 :: q.1, q.2))
      | ']' :: r2 => some ([p.1], r2)
      | _ => none)

def jpObjFields : Nat → List Char → Option (List (String × J) × List Char)
  | 0, _ => none
  | Nat.succ f, cs =>
    match jpSkipWs cs with
    | '"' :: r1 =>
      (jpStringBody r1).bind (fun kp =>
        match jpSkipWs kp.2 with
        | ':' :: r2 =>
          (jpVal f r2).bind (fun vp =>
            match jpSkipWs vp.2 with
            | ',' :: r3 =>
              (jpObjFields f r3).map (fun q =>
                ((String.mk kp.1, vp.1) :: q.1, q.2))
            | d :: r3 =>
              if d == rbraceChar then some ([(String.mk kp.1, vp.1)], r3) else none
            | [] => none)
        | _ => none)
    | _ => none

end

/-- `json.loads`: parse one value, allowing surrounding whitespace and
rejecting trailing data. -/
def jsonParse (s : String) : Option J :=
  match jpVal (2 * s.data.length + 8) s.data with
  | some p => if (jpSkipWs p.2).isEmpty then some p.1 else none
  | none => none

/-! ## Decoding JSON into the typed structures `build_schedule` consumes

The Python code traverses the decoded JSON dynamically; an ill-shaped value
raises `TypeError`/`AttributeError` at use.  The embedding decodes up front
into the typed fragment actually emitted by the portal; `none` marks data the
dynamic code would have raised on (or that is outside the modelled fragment).
-/

def jObjGet (fs : List (String × J)) (k : String) : Option J :=
  (fs.find? (fun p => p.fst == k)).map (·.snd)

/-- Python `int()` applied to a decoded JSON value (`int(item.get(...))`). -/
def pyInt : J → Option Int
  | J.num n => some n
  | J.bool b => some (if b then 1 else 0)
  | J.str s =>
    let t := (pyStrip s).data
    match t with
    | '-' :: ds => if !ds.isEmpty && ds.all isDigitChar
        then some (-(ds.foldl (fun a d => a * 10 + digitVal d) 0 : Int)) else none
    | '+' :: ds => if !ds.isEmpty && ds.all isDigitChar
        then some ((ds.foldl (fun a d => a * 10 + digitVal d) 0 : Int)) else none
    | ds => if !ds.isEmpty && ds.all isDigitChar
        then some ((ds.foldl (fun a d => a * 10 + digitVal d) 0 : Int)) else none
  | _ => none

/-- A string-or-null optional field (absent and `null` both read as `None`). -/
def jOptStr : Option J → Option (Option String)
  | none => some none
  | some J.null => some none
  | some (J.str s) => some (some s)
  | some _ => none

/-- An integer-or-null optional field. -/
def jOptInt : Option J → Option (Option Int)
  | none => some none
  | some J.null => some none
  | some (J.num n) => some (some n)
  | some _ => none

def decodeTemplateItem : J → Option TemplateItem
  | J.obj fs => do
    let ordered ←
      match jObjGet fs "orderedBy" with
      | none => some (0 : Int)
      | some v => pyInt v
    let status ← jOptInt (jObjGet fs "timeTableTemplateDetailsStatus")
    let ai ← jOptStr (jObjGet fs "additionalInfo")
    let st ← jOptStr (jObjGet fs "startTime")
    let en ← jOptStr (jObjGet fs "endTime")
    some { orderedBy := ordered, status := status, additionalInfo := ai,
           startTime := st, endTime := en }
  | _ => none

def decodeTemplates : J → Option (List TemplateItem)
  | J.arr l => l.mapM decodeTemplateItem
  | _ => none

def decodeDays : J → Option (List String)
  | J.arr l => l.mapM (fun x => match x with | J.str s => some s | _ => none)
  | _ => none

def decodeStrList : J → Option (List String)
  | J.arr l => l.mapM (fun x => match x with | J.str s => some s | _ => none)
  | _ => none

def decodeTimeTable : J → Option TimeTable
  | J.obj fs => fs.mapM (fun kv => (decodeStrList kv.snd).map (fun l => (kv.fst, l)))
  | _ => none

/-! ## Embedded-variable extraction
(`_extract_js_json` in parser.py lines 162-172 and scraper.py lines 417-427)

The regex is `var\s+{name}\s*=\s*([\s\S]*?);` under `re.search`: leftmost start
position wins and the lazy capture stops at the first following semicolon. -/

/-- Try the pattern anchored at the current position; on success return the
captured text (everything up to the first `';'` after the `=`). -/
def matchVarAt (name : List Char) : List Char → Option (List Char)
  | 'v' :: 'a' :: 'r' :: rest =>
    match rest with
    | c :: rest2 =>
      if isPyWs c then
        let afterWs := rest2.dropWhile isPyWs
        if listStartsWith name afterWs then
          let afterName := (afterWs.drop name.length).dropWhile isPyWs
          match afterName with
          | '=' :: rest3 =>
            let body := rest3.dropWhile isPyWs
            if body.any (fun ch => ch == ';') then some (body.takeWhile (fun ch => ch ≠ ';'))
            else none
          | _ => none
        else none
      else none
    | [] => none
  | _ => none

/-- Leftmost match of the variable-assignment pattern over the script text. -/
def scanVarAssign (name : List Char) : List Char → Option (List Char)
  | [] => none
  | c :: rest =>
    match matchVarAt name (c :: rest) with
    | some cap => some cap
    | none => scanVarAssign name rest

/-- `m.group(1)` of `re.search(rf"var\s+{name}\s*=\s*([\s\S]*?);", script)`. -/
def extractJsRaw (script : String) (name : String) : Option String :=
  (scanVarAssign name.data script.data).map String.mk

/-- The two error kinds of the core, plus the unhandled-exception classes the
model needs (`typeErr` for dynamic-typing failures inside `build_schedule`,
`netErr` for transport exceptions no handler converts). -/
inductive PyErr where
  | scraping (msg : String)
  | auth (msg : String)
  | typeErr (msg : String)
  | netErr (msg : String)
deriving DecidableEq, Repr

deriving instance DecidableEq for Except

def isScrapingError {α : Type} : Except PyErr α → Bool
  | Except.error (PyErr.scraping _) => true
  | _ => false

/-- `_extract_js_json(varname)`: `TimetableScrapingError` when the pattern is
absent or the captured text is not valid JSON. -/
def extract_js_json (script : String) (name : String) : Except PyErr J :=
  match extractJsRaw script name with
  | none => Except.error (PyErr.scraping ("Could not find JS variable: " ++ name))
  | some t =>
    match jsonParse t with
    | some j => Except.ok j
    | none => Except.error (PyErr.scraping ("Failed to parse " ++ name ++ " as JSON"))

/-! ## Parsed-page model

`Html` is the BeautifulSoup view of a page: the document-order tag lists the
code queries plus the raw text for the regex branches.  An absent attribute is
`none`; a missing `name` attribute on an input is the empty string (both are
falsy in the Python checks). -/

structure InputTag where
  name : String
  value : Option String
  /-- `type="hidden"`; the code never consults it, the spec mentions it. -/
  hidden : Bool
deriving DecidableEq, Repr

structure MetaTag where
  name : String
  content : Option String
deriving DecidableEq, Repr

structure FormTag where
  action : Option String
  inputs : List InputTag
deriving DecidableEq, Repr

/-- A `span.lbl-title-light` occurrence: its `get_text(strip=True)` value and
the text of its following sibling (absent when there is none). -/
structure SpanPair where
  label : String
  sibling : Option String
deriving DecidableEq, Repr

structure Html where
  inputs : List InputTag
  metas : List MetaTag
  forms : List FormTag
  spans : List SpanPair
  scripts : List String
  raw : String
deriving DecidableEq, Repr

/-- Metadata extraction (parser.py lines 150-156 / scraper.py lines 402-410):
label is the span text with trailing colons stripped, value the stripped
following text. -/
def buildMeta (spans : List SpanPair) : List (String × String) :=
  spans.foldl
    (fun m sp => dictUpd m (pyRstripColon sp.label) (pyStrip (sp.sibling.getD "")))
    []

def scriptTextOf (h : Html) : String := joinNL h.scripts

/-- The per-variable lenient fallback of `parse_admin_html`: any
`TimetableScrapingError` from `_extract_js_json` (pattern absent or bad JSON)
falls back to the given default. -/
def lenientVar (script : String) (name : String) (dflt : J) : J :=
  match extract_js_json script name with
  | Except.ok j => j
  | Except.error _ => dflt

/-- `parse_admin_html(html_text)` (parser.py lines 140-200), on the parsed-page
model, with the subject mapping explicit. -/
def parse_admin_html (mapping : Mapping) (page : Html) : Except PyErr BuildResult :=
  let meta := buildMeta page.spans
  let script := scriptTextOf page
  let tdJ := lenientVar script "timeTableTemplateDetailsJson" (J.arr [])
  let dsJ := lenientVar script "days" (J.arr [])
  let ttJ := lenientVar script "timeTableJson" (J.obj [])
  match decodeTemplates tdJ, decodeDays dsJ, decodeTimeTable ttJ with
  | some tds, some ds, some tt => Except.ok (build_schedule mapping meta tds ds tt)
  | _, _, _ => Except.error (PyErr.typeErr "ill-shaped value reached build_schedule")

/-! ## CSRF extraction (`_extract_csrf_token`, scraper.py lines 60-96) -/

/-- Branch 1: `soup.find("input", {"name": "_csrf"})` — the first input named
`_csrf` — accepted only when its `value` is truthy. -/
def findCsrfInput (h : Html) : Option String :=
  match h.inputs.find? (fun i => i.name == "_csrf") with
  | some i =>
    match i.value with
    | some v => if v ≠ "" then some v else none
    | none => none
  | none => none

/-- The first meta tag with the given name, accepted only with truthy content. -/
def metaContent (h : Html) (n : String) : Option String :=
  match h.metas.find? (fun m => m.name == n) with
  | some m =>
    match m.content with
    | some c => if c ≠ "" then some c else none
    | none => none
  | none => none

/-- Branch 2: the names `_csrf`, `csrf-token`, `csrf` tried in order. -/
def findCsrfMeta (h : Html) : Option String :=
  match metaContent h "_csrf" with
  | some c => some c
  | none =>
    match metaContent h "csrf-token" with
    | some c => some c
    | none => metaContent h "csrf"

def isHexDash (c : Char) : Bool := isHexChar c || c == '-'

def isQuoteChar (c : Char) : Bool := c == '\'' || c == '"'

/-- Branch 3 anchored at one position:
`_csrf['\"]?\s*[:=]\s*['\"]([0-9a-fA-F-]{8,})['\"]`. -/
def matchJsCsrfAt (cs : List Char) : Option String :=
  if listStartsWith "_csrf".data cs then
    let r1 := cs.drop 5
    let r2 :=
      match r1 with
      | c :: t => if isQuoteChar c then t else r1
      | [] => r1
    let r3 := r2.dropWhile isPyWs
    match r3 with
    | op :: r4 =>
      if op == ':' || op == '=' then
        let r5 := r4.dropWhile isPyWs
        match r5 with
        | q :: r6 =>
          if isQuoteChar q then
            let tok := r6.takeWhile isHexDash
            let after := r6.dropWhile isHexDash
            match after with
            | c2 :: _ =>
              if 8 ≤ tok.length && isQuoteChar c2 then some (String.mk tok) else none
            | [] => none
          else none
        | [] => none
      else none
    | [] => none
  else none

def scanJsCsrf : List Char → Option String
  | [] => none
  | c :: rest =>
    match matchJsCsrfAt (c :: rest) with
    | some t => some t
    | none => scanJsCsrf rest

/-- Take exactly `n` hex digits. -/
def takeHexN : Nat → List Char → Option (List Char × List Char)
  | 0, cs => some ([], cs)
  | Nat.succ n, c :: cs =>
    if isHexChar c then (takeHexN n cs).map (fun p => (c :: p.1, p.2)) else none
  | Nat.succ _, [] => none

def expectDash : List Char → Option (List Char)
  | '-' :: rest => some rest
  | _ => none

/-- Branch 4 anchored at one position: the UUID shape `8-4-4-4-12` of hex
digits (`re.I` makes the class `[0-9a-fA-F]`). -/
def matchUuidAt (cs : List Char) : Option String :=
  (takeHexN 8 cs).bind (fun p1 =>
    (expectDash p1.2).bind (fun r1 =>
      (takeHexN 4 r1).bind (fun p2 =>
        (expectDash p2.2).bind (fun r2 =>
          (takeHexN 4 r2).bind (fun p3 =>
            (expectDash p3.2).bind (fun r3 =>
              (takeHexN 4 r3).bind (fun p4 =>
                (expectDash p4.2).bind (fun r4 =>
                  (takeHexN 12 r4).map (fun p5 =>
                    String.mk (p1.1 ++ '-' :: p2.1 ++ '-' :: p3.1 ++ '-' :: p4.1 ++
                               '-' :: p5.1))))))))))

def scanUuid : List Char → Option String
  | [] => none
  | c :: rest =>
    match matchUuidAt (c :: rest) with
    | some u => some u
    | none => scanUuid rest

/-- `_extract_csrf_token(html_content)`: four layered sources tried in order,
`AuthenticationError` when all fail. -/
def extract_csrf_token (h : Html) : Except PyErr String :=
  match findCsrfInput h with
  | some v => Except.ok v
  | none =>
    match findCsrfMeta h with
    | some c => Except.ok c
    | none =>
      match scanJsCsrf h.raw.data with
      | some t => Except.ok t
      | none =>
        match scanUuid h.raw.data with
        | some u => Except.ok u
        | none => Except.error (PyErr.auth "CSRF token not found in response")

/-! ## Session layer (scraper.py)

A `Response` is the page a request produced, with its final URL and status;
`page.raw` is the response body text.  Cookie jars are string dicts.  The
environments below supply what each network call would have returned; a `none`
response stands for a raised transport exception. -/

structure Response where
  url : String
  status : Nat
  page : Html
deriving DecidableEq, Repr

abbrev Cookies : Type := List (String × String)

def cookieGet (c : Cookies) (k : String) : Option String := dictGet c k

/-- `_prepare_profile_context(initial_response=r)` (scraper.py lines 286-353):
HTML-embedded token preferred over the `XSRF-TOKEN`/`CSRF-TOKEN` cookie,
`AuthenticationError` when neither is truthy.  The best-effort semesters
warm-up only logs and is not modelled. -/
def prepareToken (r : Response) (cookies : Cookies) : Except PyErr String :=
  let htmlCsrf : Option String :=
    match extract_csrf_token r.page with
    | Except.ok s => some s
    | Except.error _ => none
  let cookieCsrf := pyOrOpt (cookieGet cookies "XSRF-TOKEN") (cookieGet cookies "CSRF-TOKEN")
  match (if pyTruthy htmlCsrf then htmlCsrf
         else if pyTruthy cookieCsrf then cookieCsrf else none) with
  | some s => Except.ok s
  | none => Except.error (PyErr.auth "Missing CSRF token before fetching profile")

/-- Environment for `_prepare_profile_context()` without an initial response:
the profile GET, the single retry the HTTPError handler may issue, and the
cookie jar consulted. -/
structure PrepareEnv where
  profileResp : Option Response
  retryResp : Option Response
  cookies : Cookies
deriving DecidableEq, Repr

/-- `_prepare_profile_context()` with no initial response (scraper.py lines
296-312 then 314-353). -/
def prepareProfileContext (env : PrepareEnv) : Except PyErr String :=
  match env.profileResp with
  | none => Except.error (PyErr.netErr "transport exception during profile fetch")
  | some r =>
    if 400 ≤ r.status then
      if (cookieGet env.cookies "JSESSIONID").isSome
          || (cookieGet env.cookies "SESSION").isSome then
        match env.retryResp with
        | none => Except.error (PyErr.netErr "transport exception during profile retry")
        | some r2 =>
          if 400 ≤ r2.status then Except.error (PyErr.netErr "HTTP error fetching profile")
          else prepareToken r2 env.cookies
      else Except.error (PyErr.netErr "HTTP error fetching profile")
    else prepareToken r env.cookies

/-- Environment for one `login()` run: the initial GET, the cookie jar after
it, the login POST, the optional https-upgrade landing GET, and the cookie jar
after the POST/landing. -/
structure LoginEnv where
  r0 : Option Response
  cookies1 : Cookies
  postResp : Option Response
  landingResp : Option Response
  cookies2 : Cookies
deriving DecidableEq, Repr

/-- The hidden-field dict collected from the located login form
(scraper.py lines 129-137). -/
def formInputsOf (form : Option FormTag) : List (String × String) :=
  match form with
  | some f =>
    f.inputs.foldl
      (fun m i =>
        if i.name == "" then m
        else if i.name == "j_username" || i.name == "j_password" then m
        else dictUpd m i.name (i.value.getD ""))
      []
  | none => []

/-- The form-location heuristic (scraper.py lines 109-115): first form holding
a `j_username` or `username` input. -/
def findLoginForm (h : Html) : Option FormTag :=
  h.forms.find? (fun f =>
    f.inputs.any (fun i => i.name == "j_username") ||
    f.inputs.any (fun i => i.name == "username"))

/-- The response whose body `login` validates: the POST response, replaced by
the https-upgrade landing response when the POST landed on an `http://` URL
and the landing GET succeeded with status < 400 (scraper.py lines 195-210). -/
def loginFinalResp (env : LoginEnv) : Option Response :=
  env.postResp.map (fun resp =>
    if listStartsWith "http://".data resp.url.data then
      match env.landingResp with
      | some lr => if lr.status < 400 then lr else resp
      | none => resp
    else resp)

/-- The failed-login heuristic on the lowercased final body
(scraper.py lines 212-218). -/
def loginFailureMarker (body : String) : Bool :=
  let b := pyLower body
  strContains b "j_username" || strContains b "j_spring_security_check" ||
    (strContains b "invalid" && strContains b "login")

/-- The CSRF value used for the login POST (scraper.py lines 139-158): form
hidden field, then page token, then cookie. -/
def loginCsrf (page : Html) (cookies1 : Cookies) : Option String :=
  let form := findLoginForm page
  let formInputs := formInputsOf form
  let formCsrf := dictGet formInputs "_csrf"
  let pageCsrf : Option String :=
    match extract_csrf_token page with
    | Except.ok s => some s
    | Except.error _ => none
  if pyTruthy formCsrf then formCsrf
  else if pyTruthy pageCsrf then pageCsrf
  else pyOrOpt (cookieGet cookies1 "XSRF-TOKEN") (cookieGet cookies1 "CSRF-TOKEN")

/-- The token `login` stores on success (scraper.py lines 223-232): the
profile-context preparation's token, with the raw cookie lookup as fallback
when preparation raised `AuthenticationError`. -/
def loginStoredToken (finalResp : Response) (cookies2 : Cookies) : Option String :=
  match prepareToken finalResp cookies2 with
  | Except.ok s => some s
  | Except.error _ =>
    pyOrOpt (cookieGet cookies2 "XSRF-TOKEN") (cookieGet cookies2 "CSRF-TOKEN")

/-- `login()` (scraper.py lines 98-239).  The result carries the stored
`self.csrf_token` after a successful run (`none` when the cookie fallback
found nothing).  The login POST's URL computation is not modelled: the
environment already fixes the response the POST produced. -/
def login (env : LoginEnv) : Except PyErr (Option String) :=
  match env.r0 with
  | none => Except.error (PyErr.auth "Network error during authentication")
  | some r0 =>
    if 400 ≤ r0.status then
      Except.error (PyErr.auth "Network error during authentication")
    else if !pyTruthy (loginCsrf r0.page env.cookies1) then
      Except.error (PyErr.auth "Missing CSRF token (no form, html token or cookie)")
    else
      match loginFinalResp env with
      | none => Except.error (PyErr.auth "Network error during authentication")
      | some finalResp =>
        if loginFailureMarker finalResp.page.raw then
          Except.error (PyErr.auth "Authentication failed: login page or error detected after POST")
        else
          Except.ok (loginStoredToken finalResp env.cookies2)

/-- Environment for one `fetch_timetable` run. -/
structure FetchEnv where
  prep : PrepareEnv
  resp : Option Response
deriving DecidableEq, Repr

/-- `fetch_timetable` (scraper.py lines 355-439): ensure a truthy CSRF token
(lazily preparing the profile context), GET the admin endpoint, extract the
three JS variables strictly, and build the schedule. -/
def fetch_timetable (mapping : Mapping) (csrfToken : Option String) (env : FetchEnv) :
    Except PyErr BuildResult :=
  let tokRes : Except PyErr String :=
    if pyTruthy csrfToken then Except.ok (csrfToken.getD "")
    else prepareProfileContext env.prep
  match tokRes with
  | Except.error e => Except.error e
  | Except.ok _ =>
    match env.resp with
    | none => Except.error (PyErr.scraping "Failed to fetch timetable: transport exception")
    | some r =>
      if 400 ≤ r.status then
        Except.error (PyErr.scraping "Failed to fetch timetable: HTTP error")
      else
        let meta := buildMeta r.page.spans
        let script := scriptTextOf r.page
        match extract_js_json script "timeTableTemplateDetailsJson" with
        | Except.error e => Except.error e
        | Except.ok tdJ =>
          match extract_js_json script "days" with
          | Except.error e => Except.error e
          | Except.ok dsJ =>
            match extract_js_json script "timeTableJson" with
            | Except.error e => Except.error e
            | Except.ok ttJ =>
              match decodeTemplates tdJ, decodeDays dsJ, decodeTimeTable ttJ with
              | some tds, some ds, some tt =>
                Except.ok (build_schedule mapping meta tds ds tt)
              | _, _, _ =>
                Except.error (PyErr.typeErr "ill-shaped value reached build_schedule")

/-! ## Lemmas about the cell-assembly loop -/

theorem cellLoop_eq (m : Mapping) (v : List String) :
    ∀ (cells : List Cell) (cur : Option Cell),
      (v.foldl (cellStep m) (cells, cur)).1 ++ (v.foldl (cellStep m) (cells, cur)).2.toList
        = cells ++ cellsSpecGo m cur v := by
  induction v with
  | nil => intro cells cur; simp [cellsSpecGo]
  | cons e es ih =>
    intro cells cur
    simp only [List.foldl_cons, cellsSpecGo]
    by_cases hs : isSubjectEntry e
    · simp [cellStep, hs, ih, List.append_assoc]
    · by_cases hf : (isFacultyEntry e && cur.isSome) = true
      · simp [cellStep, hs, hf, ih]
      · simp [cellStep, hs, hf, ih]

/-- The per-entry-list loop of `build_schedule` is exactly the spec's
open/append/close state machine, run from an empty open cell, appended to the
cells already collected. -/
theorem processEntries_eq_spec (m : Mapping) (cells : List Cell) (v : List String) :
    processEntries m cells v = cells ++ cellsSpec m v := by
  unfold processEntries cellsSpec
  exact cellLoop_eq m v cells none

theorem foldl_if_filter {α β : Type} (p : α → Bool) (g : β → α → β) :
    ∀ (l : List α) (b : β),
      l.foldl (fun acc x => if p x then g acc x else acc) b = (l.filter p).foldl g b := by
  intro l
  induction l with
  | nil => intro b; rfl
  | cons x xs ih =>
    intro b
    by_cases h : p x <;> simp [List.filter_cons, h, ih]

/-- `slotCells` collects exactly the subject-table entries whose key matches,
in subject-table order. -/
theorem slotCells_eq_filter (m : Mapping) (tt : TimeTable) (d : Nat) (o : Int) :
    slotCells m tt d o
      = (tt.filter (fun kv => keyMatches d o kv.fst)).foldl
          (fun cs kv => processEntries m cs kv.snd) [] := by
  unfold slotCells
  exact foldl_if_filter _ _ tt []

/-! ## Lemmas about `breakDash` -/

theorem breakDash_eq_none (cs : List Char) (h : cs.contains '-' = false) :
    breakDash cs = none := by
  induction cs with
  | nil => rfl
  | cons c t ih =>
    simp only [List.contains_cons, Bool.or_eq_false_iff] at h
    have hc : (c == '-') = false := by
      cases hcc : c == '-'
      · rfl
      · exact absurd (BEq.symm hcc) (by simp [h.1])
    simp [breakDash, hc, ih h.2]

/-! ## Lemmas about the slot-key ordering -/

theorem sortIns_perm (x : Int) (l : List Int) : (sortIns x l).Perm (x :: l) := by
  induction l with
  | nil => rfl
  | cons y ys ih =>
    by_cases h : x ≤ y
    · simp [sortIns, h]
    · simp only [sortIns, h, if_false]
      exact ((ih.cons y).trans (List.Perm.swap x y ys))

theorem sortInt_perm (l : List Int) : (sortInt l).Perm l := by
  induction l with
  | nil => rfl
  | cons x xs ih =>
    exact ((sortIns_perm x (sortInt xs)).trans (ih.cons x))

theorem sortIns_sorted (x : Int) (l : List Int) (h : l.Sorted (· ≤ ·)) :
    (sortIns x l).Sorted (· ≤ ·) := by
  induction l with
  | nil => simp [sortIns]
  | cons y ys ih =>
    rw [List.sorted_cons] at h
    by_cases hxy : x ≤ y
    · rw [sortIns, if_pos hxy, List.sorted_cons]
      refine ⟨?_, List.sorted_cons.mpr h⟩
      intro b hb
      rcases List.mem_cons.mp hb with rfl | hb
      · exact hxy
      · exact le_trans hxy (h.1 b hb)
    · rw [sortIns, if_neg hxy, List.sorted_cons]
      have hyx : y ≤ x := le_of_not_le hxy
      refine ⟨?_, ih h.2⟩
      intro b hb
      have hb2 : b ∈ x :: ys := (sortIns_perm x ys).mem_iff.mp hb
      rcases List.mem_cons.mp hb2 with rfl | hb2
      · exact hyx
      · exact h.1 b hb2

theorem sortInt_sorted (l : List Int) : (sortInt l).Sorted (· ≤ ·) := by
  induction l with
  | nil => simp [sortInt]
  | cons x xs ih => exact sortIns_sorted x (sortInt xs) ih

theorem slotKeys_go_of_nodup (tds : List TemplateItem) :
    ∀ (ks : List Int), (ks ++ tds.map (·.orderedBy)).Nodup →
      tds.foldl (fun ks it => if ks.contains it.orderedBy then ks else ks ++ [it.orderedBy]) ks
        = ks ++ tds.map (·.orderedBy) := by
  induction tds with
  | nil => intro ks _; simp
  | cons it rest ih =>
    intro ks h
    have hps : (ks ++ (it.orderedBy :: rest.map (·.orderedBy))).Nodup := by
      simpa using h
    have hnotin : ¬ it.orderedBy ∈ ks := by
      intro hmem
      exact (List.nodup_append.mp hps).2.2 hmem (List.mem_cons_self _ _)
    have hcont : ks.contains it.orderedBy = false := by
      simpa using hnotin
    simp only [List.foldl_cons, hcont, Bool.false_eq_true, if_false]
    rw [ih (ks ++ [it.orderedBy]) (by simpa using hps)]
    simp

/-- On a template list with pairwise-distinct order keys, the dict keys are the
order keys in input order. -/
theorem slotKeys_of_nodup (tds : List TemplateItem)
    (h : (tds.map (·.orderedBy)).Nodup) :
    slotKeys tds = tds.map (·.orderedBy) := by
  have := slotKeys_go_of_nodup tds [] (by simpa using h)
  simpa [slotKeys] using this

theorem slotLookup_orderedBy (tds : List TemplateItem) (o : Int) :
    (((slotLookup tds o).getD { orderedBy := o, label := "", status := none }).orderedBy) = o := by
  unfold slotLookup
  cases h : tds.reverse.find? (fun it => it.orderedBy == o) with
  | none => rfl
  | some it =>
    have heq := List.find?_some h
    show (mkSlot it).orderedBy = o
    exact beq_iff_eq.mp heq

/-! ## Shared concrete fixtures -/

/-- A one-slot template (order key 1, explicit label). -/
def fixTds1 : List TemplateItem :=
  [{ orderedBy := 1, status := none, additionalInfo := some "L",
     startTime := none, endTime := none }]

/-- A template whose order keys are exactly 1..12. -/
def fixTds12 : List TemplateItem :=
  (List.range 12).map (fun i =>
    { orderedBy := (i : Int) + 1, status := none, additionalInfo := some "L",
      startTime := none, endTime := none })

/-! ## Claim C1 -/

/-- Claim C1 (amended: the concrete entries carry the source's
`ttSubject&&`/`ttFaculty&&` tags rather than the spec's `subject&&`/`faculty&&`):
for every slot's matched entry list, a subject-tagged entry opens a new Cell
(appending the previously open one) with code and name split off the payload,
a faculty-tagged entry appends to the open Cell and is ignored without one,
and the last open Cell is appended; on the four-entry example `build_schedule`
yields exactly two Cells, each with one faculty name, in input order. -/
theorem c1_cell_state_machine :
    (∀ (mapping : Mapping) (cells : List Cell) (v : List String),
        processEntries mapping cells v = cells ++ cellsSpec mapping v) ∧
    slotAt (build_schedule [] [] fixTds1 ["Monday"]
        [("ttDivText_1_1_1",
          ["ttSubject&&CS301-Algorithms", "ttFaculty&&Dr. X",
           "ttSubject&&CS302-DBMS", "ttFaculty&&Dr. Y"])]) 0 0
      = some { slot := { orderedBy := 1, label := "L", status := none },
               cells :=
                 [{ subject := "CS301-Algorithms", code := "CS301", name := "Algorithms",
                    sub_code := "", faculties := ["Dr. X"],
                    raw := ["ttSubject&&CS301-Algorithms", "ttFaculty&&Dr. X"] },
                  { subject := "CS302-DBMS", code := "CS302", name := "DBMS",
                    sub_code := "", faculties := ["Dr. Y"],
                    raw := ["ttSubject&&CS302-DBMS", "ttFaculty&&Dr. Y"] }] } :=
  ⟨fun m cells v => processEntries_eq_spec m cells v, by decide⟩

/-- Claim C1, counterexample to the claim as stated: with the spec's literal
tags `subject&&`/`faculty&&` no entry matches the `ttSubject`/`ttFaculty`
prefixes, so the slot gets zero cells, not two. -/
theorem c1_counterexample :
    (slotAt (build_schedule [] [] fixTds1 ["Monday"]
        [("ttDivText_1_1_1",
          ["subject&&CS301-Algorithms", "faculty&&Dr. X",
           "subject&&CS302-DBMS", "faculty&&Dr. Y"])]) 0 0).map (fun se => se.cells.length)
      = some 0 ∧ (some 0 : Option Nat) ≠ some 2 := by decide

/-! ## Claim C9 -/

/-- Claim C9: a subject-tagged entry whose payload has no dash yields a Cell
whose code is the whole payload and whose name is empty. -/
theorem c9_no_dash_payload (mapping : Mapping) (e : String)
    (hsub : isSubjectEntry e = true)
    (hnd : (entryPayload e).data.contains '-' = false) :
    (mkSubjectCell mapping e).code = entryPayload e ∧ (mkSubjectCell mapping e).name = "" := by
  simp [mkSubjectCell, breakDash_eq_none _ hnd]

/-- Claim C9, witness at `"ttSubject&&CS301"`. -/
theorem c9_no_dash_payload_witness :
    isSubjectEntry "ttSubject&&CS301" = true ∧
    (entryPayload "ttSubject&&CS301").data.contains '-' = false ∧
    ((mkSubjectCell [] "ttSubject&&CS301").code = entryPayload "ttSubject&&CS301" ∧
      (mkSubjectCell [] "ttSubject&&CS301").name = "") :=
  ⟨by decide, by decide, c9_no_dash_payload [] "ttSubject&&CS301" (by decide) (by decide)⟩

/-! ## Claim C2 -/

/-- Claim C2 (amended: the key pattern is `ttDivText_{d}_{o}_{n}` — not
`cellText_...` — and matched entries are processed in subject-table insertion
order rather than ascending key order): for every day index `d = i + 1`
(1-based, up to the number of day names) and retained order key `o` at
position `j`, the slot holds exactly the cells of the entries whose key
fullmatches the pattern for some digit string `n`, in table order. -/
theorem c2_slot_collection (mapping : Mapping) (meta : List (String × String))
    (tds : List TemplateItem) (days : List String) (tt : TimeTable)
    (i j : Nat) (o : Int)
    (hd : i < days.length) (hj : (retainedKeys tds)[j]? = some o) :
    slotAt (build_schedule mapping meta tds days tt) i j
      = some { slot := (slotLookup tds o).getD { orderedBy := o, label := "", status := none }
               cells := (tt.filter (fun kv => keyMatches (i + 1) o kv.fst)).foldl
                          (fun cs kv => processEntries mapping cs kv.snd) [] } := by
  unfold slotAt build_schedule
  rw [List.getElem?_map, List.getElem?_range hd]
  simp only [Option.map_some', Option.some_bind]
  rw [List.getElem?_map, hj]
  simp only [Option.map_some']
  rw [slotCells_eq_filter]

/-- Claim C2, counterexample to the claim as stated: (1) the subject-table key
`cellText_2_3_1` (whose entry list parses to one cell) contributes nothing to
day 2, slot order 3 — the code matches only `ttDivText_...` keys; (2) two
matching keys stored in descending key order are processed in subject-table
insertion order, not ascending key order. -/
theorem c2_counterexample :
    ((slotAt (build_schedule [] []
        [{ orderedBy := 3, status := none, additionalInfo := some "L",
           startTime := none, endTime := none }]
        ["Mon", "Tue"]
        [("cellText_2_3_1", ["ttSubject&&CS301-Algorithms"])]) 1 0).map (·.cells)
      = some [] ∧
    cellsSpec [] ["ttSubject&&CS301-Algorithms"] ≠ []) ∧
    ((slotAt (build_schedule [] [] fixTds1 ["Mon"]
        [("ttDivText_1_1_2", ["ttSubject&&B-2"]),
         ("ttDivText_1_1_1", ["ttSubject&&A-1"])]) 0 0).map (fun se => se.cells.map (·.code))
      = some ["B", "A"] ∧
    (some ["B", "A"] : Option (List String)) ≠ some ["A", "B"]) := by
  exact ⟨⟨by decide, by decide⟩, ⟨by decide, by decide⟩⟩

/-! ## Claim C3 -/

/-- Claim C3: with order keys exactly `[1..12]`, every day of the schedule
carries exactly the slots with keys `[1..9]` — nine per day — in ascending
order-key order. -/
theorem c3_truncation (mapping : Mapping) (meta : List (String × String))
    (days : List String) (tt : TimeTable) (tds : List TemplateItem)
    (h : (tds.map (·.orderedBy)).Perm
          ([1, 2, 3, 4, 5, 6, 7, 8, 9, 10, 11, 12] : List Int)) :
    (build_schedule mapping meta tds days tt).schedule.map
        (fun de => de.slots.map (·.slot.orderedBy))
      = List.replicate days.length ([1, 2, 3, 4, 5, 6, 7, 8, 9] : List Int) := by
  have hnd : (tds.map (·.orderedBy)).Nodup := h.nodup_iff.mpr (by decide)
  have hsk : slotKeys tds = tds.map (·.orderedBy) := slotKeys_of_nodup tds hnd
  have hperm : (sortInt (slotKeys tds)).Perm
      ([1, 2, 3, 4, 5, 6, 7, 8, 9, 10, 11, 12] : List Int) :=
    (sortInt_perm _).trans (hsk ▸ h)
  have hlit : sortInt (slotKeys tds) = [1, 2, 3, 4, 5, 6, 7, 8, 9, 10, 11, 12] :=
    List.eq_of_perm_of_sorted hperm (sortInt_sorted _) (by decide)
  have hrk : retainedKeys tds = [1, 2, 3, 4, 5, 6, 7, 8, 9] := by
    rw [retainedKeys, hlit]; decide
  unfold build_schedule
  simp only [List.map_map]
  have hinner : ∀ i : Nat,
      ((retainedKeys tds).map (fun o =>
        ({ slot := (slotLookup tds o).getD { orderedBy := o, label := "", status := none }
           cells := slotCells mapping tt (i + 1) o } : SlotEntry))).map (·.slot.orderedBy)
        = [1, 2, 3, 4, 5, 6, 7, 8, 9] := by
    intro i
    rw [List.map_map]
    have : ∀ o ∈ retainedKeys tds,
        ((·.slot.orderedBy) ∘ (fun o =>
          ({ slot := (slotLookup tds o).getD { orderedBy := o, label := "", status := none }
             cells := slotCells mapping tt (i + 1) o } : SlotEntry))) o = id o := by
      intro o _
      exact slotLookup_orderedBy tds o
    rw [List.map_congr_left this, List.map_id, hrk]
  refine List.ext_getElem (by simp) ?_
  intro n h1 h2
  simp only [List.getElem_map, List.getElem_range, List.getElem_replicate]
  exact hinner n

/-- Claim C3, witness: a 12-slot template on a one-day week. -/
theorem c3_truncation_witness :
    (fixTds12.map (·.orderedBy)).Perm ([1, 2, 3, 4, 5, 6, 7, 8, 9, 10, 11, 12] : List Int) ∧
    (build_schedule [] [] fixTds12 ["Mon"] []).schedule.map
        (fun de => de.slots.map (·.slot.orderedBy))
      = List.replicate 1 ([1, 2, 3, 4, 5, 6, 7, 8, 9] : List Int) :=
  ⟨by decide, c3_truncation [] [] ["Mon"] [] fixTds12 (by decide)⟩

/-- Claim C2, witness: day 1, slot position 0 (order key 1) of a one-slot,
one-day schedule. -/
theorem c2_slot_collection_witness :
    (0 < (["Mon"] : List String).length ∧ (retainedKeys fixTds1)[0]? = some 1) ∧
    slotAt (build_schedule [] [] fixTds1 ["Mon"]
        [("ttDivText_1_1_1", ["ttSubject&&X-Y"])]) 0 0
      = some { slot := (slotLookup fixTds1 1).getD { orderedBy := 1, label := "", status := none }
               cells := (([("ttDivText_1_1_1", ["ttSubject&&X-Y"])] : TimeTable).filter
                          (fun kv => keyMatches 1 1 kv.fst)).foldl
                          (fun cs kv => processEntries [] cs kv.snd) [] } :=
  ⟨⟨by decide, by decide⟩,
    c2_slot_collection [] [] fixTds1 ["Mon"] [("ttDivText_1_1_1", ["ttSubject&&X-Y"])]
      0 0 1 (by decide) (by decide)⟩

/-! ## Claim C10 -/

/-- The slot-meta list every day shares: one per retained order key, ascending. -/
def retainedSlots (tds : List TemplateItem) : List SlotMeta :=
  (retainedKeys tds).map (fun o =>
    (slotLookup tds o).getD { orderedBy := o, label := "", status := none })

/-- The cell-free shape of a build result: metadata plus, per day, the day name
and slot-meta list. -/
def shapeOf (r : BuildResult) : List (String × String) × List (String × List SlotMeta) :=
  (r.meta, r.schedule.map (fun de => (de.day, de.slots.map (·.slot))))

theorem range_map_getD (days : List String) (f : Nat → String) :
    (List.range days.length).map (fun i => (days[i]?).getD (f i)) = days := by
  refine List.ext_getElem (by simp) ?_
  intro n h1 h2
  simp only [List.getElem_map, List.getElem_range]
  rw [List.getElem?_eq_getElem h2]
  rfl

/-- Claim C10: the schedule has one day entry per supplied day name, in order;
every day has the same slot list — one slot per retained order key, in
ascending order-key order — and the whole shape (metadata, day names, slot
metas) does not depend on the subject table. -/
theorem c10_schedule_shape (mapping : Mapping) (meta : List (String × String))
    (tds : List TemplateItem) (days : List String) (tt : TimeTable) :
    (build_schedule mapping meta tds days tt).schedule.map (·.day) = days ∧
    (build_schedule mapping meta tds days tt).schedule.map (fun de => de.slots.map (·.slot))
      = List.replicate days.length (retainedSlots tds) ∧
    (retainedKeys tds).Sorted (· ≤ ·) ∧
    ∀ tt2 : TimeTable,
      shapeOf (build_schedule mapping meta tds days tt)
        = shapeOf (build_schedule mapping meta tds days tt2) := by
  refine ⟨?_, ?_, ?_, ?_⟩
  · unfold build_schedule
    simp only [List.map_map]
    exact range_map_getD days (fun i => "Day " ++ toString (i + 1))
  · unfold build_schedule
    simp only [List.map_map, List.map_map]
    have : (fun i => ((retainedKeys tds).map (fun o =>
        ({ slot := (slotLookup tds o).getD { orderedBy := o, label := "", status := none }
           cells := slotCells mapping tt (i + 1) o } : SlotEntry))).map (·.slot))
        = (fun _ : Nat => retainedSlots tds) := by
      funext i
      rw [List.map_map]
      rfl
    show (List.range days.length).map _ = _
    rw [show ((fun de => de.slots.map (·.slot)) ∘ (fun i =>
        ({ day := (days[i]?).getD ("Day " ++ toString (i + 1))
           slots := (retainedKeys tds).map (fun o =>
             ({ slot := (slotLookup tds o).getD { orderedBy := o, label := "", status := none }
                cells := slotCells mapping tt (i + 1) o } : SlotEntry)) } : DayEntry)))
      = (fun _ : Nat => retainedSlots tds) from by funext i; rw [Function.comp, List.map_map]; rfl]
    simp [List.map_const]
  · exact List.Pairwise.filter _ (sortInt_sorted (slotKeys tds))
  · intro tt2
    unfold shapeOf build_schedule
    simp only [List.map_map]
    refine congrArg _ ?_
    refine List.map_congr_left ?_
    intro a _
    simp only [Function.comp, List.map_map]
    rfl

/-! ## Claim C8 -/

/-- Erase the one field that comes from the external subject mapping. -/
def stripCell (c : Cell) : Cell := { c with sub_code := "" }

def stripResult (r : BuildResult) : BuildResult :=
  { r with schedule := r.schedule.map (fun de =>
      { de with slots := de.slots.map (fun se =>
          { se with cells := se.cells.map stripCell }) }) }

theorem strip_mkSubjectCell (m1 m2 : Mapping) (e : String) :
    stripCell (mkSubjectCell m1 e) = stripCell (mkSubjectCell m2 e) := rfl

theorem strip_addFaculty (c : Cell) (e : String) :
    stripCell (addFaculty c e) = addFaculty (stripCell c) e := rfl

theorem optionToList_strip (o1 o2 : Option Cell)
    (ho : o1.map stripCell = o2.map stripCell) :
    o1.toList.map stripCell = o2.toList.map stripCell := by
  cases o1 <;> cases o2 <;> simp_all

theorem cellStep_strip (m1 m2 : Mapping) (e : String)
    (st1 st2 : List Cell × Option Cell)
    (hc : st1.1.map stripCell = st2.1.map stripCell)
    (ho : st1.2.map stripCell = st2.2.map stripCell) :
    (cellStep m1 st1 e).1.map stripCell = (cellStep m2 st2 e).1.map stripCell ∧
    (cellStep m1 st1 e).2.map stripCell = (cellStep m2 st2 e).2.map stripCell := by
  have hsome : st1.2.isSome = st2.2.isSome := by
    have h1 : (st1.2.map stripCell).isSome = (st2.2.map stripCell).isSome := by rw [ho]
    simpa using h1
  have htl : st1.2.toList.map stripCell = st2.2.toList.map stripCell :=
    optionToList_strip _ _ ho
  unfold cellStep
  by_cases hs : isSubjectEntry e
  · simp only [hs, if_true]
    constructor
    · simp [hc, htl]
    · simp [strip_mkSubjectCell m1 m2 e]
  · simp only [hs, Bool.false_eq_true, if_false]
    rw [hsome]
    by_cases hf : (isFacultyEntry e && st2.2.isSome) = true
    · simp only [hf, if_true]
      refine ⟨hc, ?_⟩
      rw [Option.map_map, Option.map_map]
      have h1 : stripCell ∘ (fun c => addFaculty c e)
          = (fun c => addFaculty c e) ∘ stripCell := by
        funext c; exact strip_addFaculty c e
      rw [h1, ← Option.map_map, ← Option.map_map, ho]
    · simp only [hf, Bool.false_eq_true, if_false]
      exact ⟨hc, ho⟩

theorem cellLoop_strip (m1 m2 : Mapping) (v : List String) :
    ∀ (st1 st2 : List Cell × Option Cell),
      st1.1.map stripCell = st2.1.map stripCell →
      st1.2.map stripCell = st2.2.map stripCell →
      (v.foldl (cellStep m1) st1).1.map stripCell
          = (v.foldl (cellStep m2) st2).1.map stripCell ∧
      (v.foldl (cellStep m1) st1).2.map stripCell
          = (v.foldl (cellStep m2) st2).2.map stripCell := by
  induction v with
  | nil => intro st1 st2 hc ho; exact ⟨hc, ho⟩
  | cons e es ih =>
    intro st1 st2 hc ho
    simp only [List.foldl_cons]
    have h := cellStep_strip m1 m2 e st1 st2 hc ho
    exact ih _ _ h.1 h.2

theorem processEntries_strip (m1 m2 : Mapping) (v : List String)
    (cs1 cs2 : List Cell) (hc : cs1.map stripCell = cs2.map stripCell) :
    (processEntries m1 cs1 v).map stripCell = (processEntries m2 cs2 v).map stripCell := by
  unfold processEntries
  have h := cellLoop_strip m1 m2 v (cs1, none) (cs2, none) hc rfl
  have htl : (v.foldl (cellStep m1) (cs1, none)).2.toList.map stripCell
      = (v.foldl (cellStep m2) (cs2, none)).2.toList.map stripCell :=
    optionToList_strip _ _ h.2
  simp [h.1, htl]

theorem slotCells_strip (m1 m2 : Mapping) (tt : TimeTable) (d : Nat) (o : Int) :
    (slotCells m1 tt d o).map stripCell = (slotCells m2 tt d o).map stripCell := by
  unfold slotCells
  suffices h : ∀ (cs1 cs2 : List Cell), cs1.map stripCell = cs2.map stripCell →
      (tt.foldl (fun cs kv => if keyMatches d o kv.fst then processEntries m1 cs kv.snd else cs) cs1).map stripCell
        = (tt.foldl (fun cs kv => if keyMatches d o kv.fst then processEntries m2 cs kv.snd else cs) cs2).map stripCell by
    exact h [] [] rfl
  induction tt with
  | nil => intro cs1 cs2 hc; exact hc
  | cons kv rest ih =>
    intro cs1 cs2 hc
    simp only [List.foldl_cons]
    by_cases hk : keyMatches d o kv.fst
    · simp only [hk, if_true]
      exact ih _ _ (processEntries_strip m1 m2 kv.snd cs1 cs2 hc)
    · simp only [hk, Bool.false_eq_true, if_false]
      exact ih _ _ hc

theorem build_schedule_strip (m1 m2 : Mapping) (meta : List (String × String))
    (tds : List TemplateItem) (days : List String) (tt : TimeTable) :
    stripResult (build_schedule m1 meta tds days tt)
      = stripResult (build_schedule m2 meta tds days tt) := by
  unfold stripResult build_schedule
  simp only [List.map_map, BuildResult.mk.injEq, true_and]
  refine List.map_congr_left ?_
  intro i _
  simp only [Function.comp, DayEntry.mk.injEq, true_and, List.map_map]
  refine List.map_congr_left ?_
  intro o _
  simp only [Function.comp, SlotEntry.mk.injEq, true_and]
  exact slotCells_strip m1 m2 tt (i + 1) o

/-- Claim C8 (amended: `ParseAdminHTML` is a pure function of the HTML text and
the process-wide subject-mapping cache fetched by `_load_subject_mapping` —
not of the HTML text alone): it consults no session state, and apart from the
cosmetic `sub_code` labels drawn from that mapping its output is determined by
the HTML text alone. -/
theorem c8_pure_up_to_mapping (page : Html) (m1 m2 : Mapping) :
    (parse_admin_html m1 page).map stripResult = (parse_admin_html m2 page).map stripResult := by
  have key : ∀ (tdJ dsJ ttJ : J) (meta : List (String × String)),
      (Except.map stripResult
        (match decodeTemplates tdJ, decodeDays dsJ, decodeTimeTable ttJ with
         | some tds, some ds, some tt => Except.ok (build_schedule m1 meta tds ds tt)
         | _, _, _ => Except.error (PyErr.typeErr "ill-shaped value reached build_schedule")))
      = (Except.map stripResult
        (match decodeTemplates tdJ, decodeDays dsJ, decodeTimeTable ttJ with
         | some tds, some ds, some tt => Except.ok (build_schedule m2 meta tds ds tt)
         | _, _, _ => Except.error (PyErr.typeErr "ill-shaped value reached build_schedule"))) := by
    intro tdJ dsJ ttJ meta
    cases decodeTemplates tdJ with
    | none => rfl
    | some tds =>
      cases decodeDays dsJ with
      | none => rfl
      | some ds =>
        cases decodeTimeTable ttJ with
        | none => rfl
        | some tt =>
          simp only [Except.map]
          rw [build_schedule_strip m1 m2]
  exact key _ _ _ _

/-- A saved admin page with one template slot, one day and one subject cell. -/
def c8Page : Html :=
  { inputs := [], metas := [], forms := [], spans := []
    scripts :=
      ["var timeTableTemplateDetailsJson = [\x7b\"orderedBy\": 1, \"additionalInfo\": \"A\"\x7d];",
       "var days = [\"Mon\"];",
       "var timeTableJson = \x7b\"ttDivText_1_1_1\": [\"ttSubject&&CS301-Algo\"]\x7d;"]
    raw := "" }

/-- Claim C8, counterexample to the claim as stated: the same HTML text parsed
under two states of the external subject-mapping cache yields different
outputs (the `sub_code` field), so `ParseAdminHTML` is not a function of the
HTML text alone. -/
theorem c8_counterexample :
    parse_admin_html [] c8Page ≠ parse_admin_html [("CS301", "UE23CS351A")] c8Page := by
  decide

/-! ## Claim C4 -/

theorem extract_js_json_cases (script name : String) :
    (∃ j, extract_js_json script name = Except.ok j) ∨
    (∃ m, extract_js_json script name = Except.error (PyErr.scraping m)) := by
  rcases hraw : extractJsRaw script name with _ | t
  · exact Or.inr ⟨"Could not find JS variable: " ++ name, by simp [extract_js_json, hraw]⟩
  · rcases hj : jsonParse t with _ | j
    · exact Or.inr ⟨"Failed to parse " ++ name ++ " as JSON",
        by simp [extract_js_json, hraw, hj]⟩
    · exact Or.inl ⟨j, by simp [extract_js_json, hraw, hj]⟩

/-- Claim C4: when one of the three embedded JS variables is absent, the strict
live-fetch path fails with `TimetableScrapingError`, while the lenient offline
path raises nothing and substitutes the empty default (`[]`, `[]`, `{}`)
before building the schedule (the remaining, present variables assumed
well-shaped). -/
theorem c4_strict_vs_lenient (page : Html) (v : String) (mapping : Mapping)
    (hv : v ∈ ["timeTableTemplateDetailsJson", "days", "timeTableJson"])
    (habs : extractJsRaw (scriptTextOf page) v = none) :
    (∀ (csrf : Option String) (env : FetchEnv) (r : Response),
        pyTruthy csrf = true → env.resp = some r → r.status < 400 → r.page = page →
        isScrapingError (fetch_timetable mapping csrf env) = true) ∧
    (∀ (tds : List TemplateItem) (ds : List String) (tt : TimeTable),
        decodeTemplates (lenientVar (scriptTextOf page) "timeTableTemplateDetailsJson" (J.arr []))
          = some tds →
        decodeDays (lenientVar (scriptTextOf page) "days" (J.arr [])) = some ds →
        decodeTimeTable (lenientVar (scriptTextOf page) "timeTableJson" (J.obj [])) = some tt →
        parse_admin_html mapping page
            = Except.ok (build_schedule mapping (buildMeta page.spans) tds ds tt) ∧
          (v = "timeTableTemplateDetailsJson" → tds = []) ∧
          (v = "days" → ds = []) ∧
          (v = "timeTableJson" → tt = [])) := by
  have herr : extract_js_json (scriptTextOf page) v
      = Except.error (PyErr.scraping ("Could not find JS variable: " ++ v)) := by
    unfold extract_js_json
    rw [habs]
  constructor
  · intro csrf env r hc hr hst hpg
    unfold fetch_timetable
    rw [hc]
    simp only [if_true]
    rw [hr]
    have hlt : ¬ 400 ≤ r.status := by omega
    simp only [hlt, if_false]
    rw [hpg]
    rcases List.mem_cons.mp hv with rfl | hv2
    · rw [herr]; rfl
    · rcases extract_js_json_cases (scriptTextOf page) "timeTableTemplateDetailsJson"
        with ⟨j1, hj1⟩ | ⟨m1, hm1⟩
      · rw [hj1]
        rcases List.mem_cons.mp hv2 with rfl | hv3
        · rw [herr]; rfl
        · rcases extract_js_json_cases (scriptTextOf page) "days"
            with ⟨j2, hj2⟩ | ⟨m2, hm2⟩
          · rw [hj2]
            rcases List.mem_cons.mp hv3 with rfl | hv4
            · rw [herr]; rfl
            · simp at hv4
          · rw [hm2]; rfl
      · rw [hm1]; rfl
  · intro tds ds tt h1 h2 h3
    refine ⟨?_, ?_, ?_, ?_⟩
    · simp only [parse_admin_html, h1, h2, h3]
    · intro hveq
      subst hveq
      have hdef : lenientVar (scriptTextOf page) "timeTableTemplateDetailsJson" (J.arr [])
          = J.arr [] := by
        unfold lenientVar
        rw [herr]
      rw [hdef] at h1
      have : decodeTemplates (J.arr []) = some [] := rfl
      rw [this] at h1
      exact (Option.some_inj.mp h1).symm
    · intro hveq
      subst hveq
      have hdef : lenientVar (scriptTextOf page) "days" (J.arr []) = J.arr [] := by
        unfold lenientVar
        rw [herr]
      rw [hdef] at h2
      have : decodeDays (J.arr []) = some [] := rfl
      rw [this] at h2
      exact (Option.some_inj.mp h2).symm
    · intro hveq
      subst hveq
      have hdef : lenientVar (scriptTextOf page) "timeTableJson" (J.obj []) = J.obj [] := by
        unfold lenientVar
        rw [herr]
      rw [hdef] at h3
      have : decodeTimeTable (J.obj []) = some [] := rfl
      rw [this] at h3
      exact (Option.some_inj.mp h3).symm

/-- A saved admin page on which `timeTableTemplateDetailsJson` is absent while
`days` and `timeTableJson` are present and well-formed. -/
def c4Page : Html :=
  { inputs := [], metas := [], forms := [], spans := []
    scripts := ["var days = [\"Mon\"];", "var timeTableJson = \x7b\x7d;"]
    raw := "" }

def c4FetchEnv : FetchEnv :=
  { prep := { profileResp := none, retryResp := none, cookies := [] }
    resp := some { url := "https://example/admin", status := 200, page := c4Page } }

/-- Claim C4, witness: on `c4Page` the strict fetch fails with a scraping error
and the lenient parse succeeds with the template list defaulted to `[]`. -/
theorem c4_strict_vs_lenient_witness :
    isScrapingError (fetch_timetable [] (some "tok") c4FetchEnv) = true ∧
    parse_admin_html [] c4Page
      = Except.ok (build_schedule [] (buildMeta c4Page.spans) [] ["Mon"] []) := by
  have h := c4_strict_vs_lenient c4Page "timeTableTemplateDetailsJson" []
    (by decide) (by decide)
  refine ⟨h.1 (some "tok") c4FetchEnv _ (by decide) rfl (by decide) rfl, ?_⟩
  have h2 := h.2 [] ["Mon"] [] (by decide) (by decide) (by decide)
  exact h2.1

/-! ## Claim C5 -/

/-- Claim C5 (amended: tier (a) keys on the *first* input named `_csrf` in
document order — hidden or not — and fires only when that input carries a
non-empty value): the four tiers (first `_csrf` input, meta tags
`_csrf`/`csrf-token`/`csrf`, inline-script assignment, UUID-shaped string) are
tried in a fixed order with first match winning, and `AuthenticationError` is
raised when none match; in particular whenever the first `_csrf`-named input
has a non-empty value, that value is returned regardless of any matching meta
tag. -/
theorem c5_csrf_search_order (h : Html) :
    (∀ v, findCsrfInput h = some v → extract_csrf_token h = Except.ok v) ∧
    (findCsrfInput h = none →
      ∀ c, findCsrfMeta h = some c → extract_csrf_token h = Except.ok c) ∧
    (findCsrfInput h = none → findCsrfMeta h = none →
      ∀ t, scanJsCsrf h.raw.data = some t → extract_csrf_token h = Except.ok t) ∧
    (findCsrfInput h = none → findCsrfMeta h = none → scanJsCsrf h.raw.data = none →
      ∀ u, scanUuid h.raw.data = some u → extract_csrf_token h = Except.ok u) ∧
    (findCsrfInput h = none → findCsrfMeta h = none → scanJsCsrf h.raw.data = none →
      scanUuid h.raw.data = none →
      extract_csrf_token h = Except.error (PyErr.auth "CSRF token not found in response")) := by
  refine ⟨?_, ?_, ?_, ?_, ?_⟩
  · intro v hv
    unfold extract_csrf_token
    rw [hv]
  · intro h1 c hc
    unfold extract_csrf_token
    rw [h1, hc]
  · intro h1 h2 t ht
    unfold extract_csrf_token
    rw [h1, h2, ht]
  · intro h1 h2 h3 u hu
    unfold extract_csrf_token
    rw [h1, h2, h3, hu]
  · intro h1 h2 h3 h4
    unfold extract_csrf_token
    rw [h1, h2, h3, h4]

def c5Page : Html :=
  { inputs := [{ name := "_csrf", value := some "tok123", hidden := true }]
    metas := [{ name := "_csrf", content := some "metatok" }]
    forms := [], spans := [], scripts := [], raw := "" }

/-- Claim C5, witness: a page with a valued hidden `_csrf` input and a
matching meta tag returns the input value. -/
theorem c5_csrf_search_order_witness :
    findCsrfInput c5Page = some "tok123" ∧ extract_csrf_token c5Page = Except.ok "tok123" :=
  ⟨by decide, (c5_csrf_search_order c5Page).1 "tok123" (by decide)⟩

/-- A page holding a value-less `_csrf` input before a hidden, valued one,
plus a `_csrf` meta tag. -/
def c5CexPage : Html :=
  { inputs := [{ name := "_csrf", value := none, hidden := false },
               { name := "_csrf", value := some "tokA12345", hidden := true }]
    metas := [{ name := "_csrf", content := some "metatok" }]
    forms := [], spans := [], scripts := [], raw := "" }

/-- Claim C5, counterexample to the claim as stated: this page contains a
hidden `_csrf` input with a value and a matching meta tag, yet the meta
content — not the hidden input's value — is returned, because the code only
consults the first input named `_csrf` (which has no value here). -/
theorem c5_counterexample :
    (c5CexPage.inputs.any (fun i => i.hidden && i.name == "_csrf" && pyTruthy i.value)) = true ∧
    (c5CexPage.metas.any (fun m => m.name == "_csrf" && pyTruthy m.content)) = true ∧
    extract_csrf_token c5CexPage = Except.ok "metatok" ∧
    extract_csrf_token c5CexPage ≠ Except.ok "tokA12345" := by
  refine ⟨by decide, by decide, by decide, by decide⟩

/-! ## Claim C6 -/

theorem truthy_select_ne_empty (a b : Option String) (s : String)
    (h : (if pyTruthy a then a else if pyTruthy b then b else none) = some s) :
    s ≠ "" := by
  by_cases h1 : pyTruthy a
  · rw [if_pos h1] at h
    subst h
    simpa [pyTruthy] using h1
  · rw [if_neg h1] at h
    by_cases h2 : pyTruthy b
    · rw [if_pos h2] at h
      subst h
      simpa [pyTruthy] using h2
    · rw [if_neg h2] at h
      cases h

theorem matchOptOk (X : Option String) (e : PyErr) (s : String)
    (h : (match X with
          | some t => Except.ok t
          | none => (Except.error e : Except PyErr String)) = Except.ok s) :
    X = some s := by
  cases X with
  | none => cases h
  | some t => simpa using h

/-- `_prepare_profile_context` never returns an empty token: both the
HTML-extracted and the cookie token pass a Python truthiness check first. -/
theorem prepareToken_ok_ne_empty (r : Response) (c : Cookies) (s : String)
    (h : prepareToken r c = Except.ok s) : s ≠ "" := by
  simp only [prepareToken] at h
  exact truthy_select_ne_empty _ _ _ (matchOptOk _ _ _ h)

/-- The outcome `_prepare_profile_context(final_resp)` would have during this
login run. -/
def loginPrepareOutcome (env : LoginEnv) : Except PyErr String :=
  match loginFinalResp env with
  | some fr => prepareToken fr env.cookies2
  | none => Except.error (PyErr.auth "no post-login response")

/-- Claim C6 (amended: the invariant holds provided the post-login
profile-context preparation resolves a token; when it raises, the cookie
fallback may leave the stored token empty or unset, to be resolved lazily by
`fetch_timetable`): whenever `login()` succeeds and the preparation step
produced token `s`, the stored CSRF token is `some s` and non-empty. -/
theorem c6_token_after_login (env : LoginEnv) (t : Option String) (s : String)
    (hl : login env = Except.ok t) (hp : loginPrepareOutcome env = Except.ok s) :
    t = some s ∧ s ≠ "" := by
  unfold login at hl
  unfold loginPrepareOutcome at hp
  split at hl
  · cases hl
  · rename_i r0 hr0
    split at hl
    · cases hl
    · split at hl
      · cases hl
      · split at hl
        · cases hl
        · rename_i fr hfr
          split at hl
          · cases hl
          · have ht : t = loginStoredToken fr env.cookies2 := by
              injection hl with h
              exact h.symm
            have hp2 : prepareToken fr env.cookies2 = Except.ok s := by
              rw [hfr] at hp
              exact hp
            unfold loginStoredToken at ht
            rw [hp2] at ht
            exact ⟨ht, prepareToken_ok_ne_empty fr env.cookies2 s hp2⟩

/-- A login environment that succeeds: page token on the initial page, clean
post-login body carrying a fresh `_csrf` input. -/
def c6GoodEnv : LoginEnv :=
  { r0 := some
      { url := "https://portal/", status := 200
        page := { inputs := [{ name := "_csrf", value := some "aaaa1111", hidden := true }]
                  metas := [], forms := [], spans := [], scripts := [], raw := "" } }
    cookies1 := []
    postResp := some
      { url := "https://portal/home", status := 200
        page := { inputs := [{ name := "_csrf", value := some "bbbb2222", hidden := true }]
                  metas := [], forms := [], spans := [], scripts := []
                  raw := "welcome home" } }
    landingResp := none
    cookies2 := [] }

/-- Claim C6, witness: a successful login whose preparation step resolves the
fresh token `bbbb2222`. -/
theorem c6_token_after_login_witness :
    login c6GoodEnv = Except.ok (some "bbbb2222") ∧
    loginPrepareOutcome c6GoodEnv = Except.ok "bbbb2222" ∧
    (some "bbbb2222" : Option String) = some "bbbb2222" ∧ "bbbb2222" ≠ "" :=
  ⟨by decide, by decide,
    (c6_token_after_login c6GoodEnv (some "bbbb2222") "bbbb2222" (by decide) (by decide)).1,
    (c6_token_after_login c6GoodEnv (some "bbbb2222") "bbbb2222" (by decide) (by decide)).2⟩

/-- A login environment whose post-login page and cookie jar carry no token of
any kind. -/
def c6BareEnv : LoginEnv :=
  { r0 := some
      { url := "https://portal/", status := 200
        page := { inputs := [{ name := "_csrf", value := some "aaaa1111", hidden := true }]
                  metas := [], forms := [], spans := [], scripts := [], raw := "" } }
    cookies1 := []
    postResp := some
      { url := "https://portal/home", status := 200
        page := { inputs := [], metas := [], forms := [], spans := [], scripts := []
                  raw := "welcome home" } }
    landingResp := none
    cookies2 := [] }

/-- Claim C6, counterexample to the claim as stated: `login()` returns
successfully, yet the stored CSRF token is unset (the preparation step raised
and the cookie fallback found nothing), so no non-empty token is present
afterwards. -/
theorem c6_counterexample :
    login c6BareEnv = Except.ok none ∧
    ¬ ∃ s : String, (none : Option String) = some s ∧ s ≠ "" := by
  refine ⟨by decide, ?_⟩
  rintro ⟨s, hs, _⟩
  cases hs

/-! ## Claim C7 -/

/-- Claim C7: whenever the validated post-login response body carries a
login-form marker (`j_username` or `j_spring_security_check`) or both an
"invalid" and a "login" phrase, `login()` raises `AuthenticationError` rather
than succeeding. -/
theorem c7_login_marker_fails (env : LoginEnv) (fr : Response)
    (hfr : loginFinalResp env = some fr)
    (hm : loginFailureMarker fr.page.raw = true) :
    ∃ msg, login env = Except.error (PyErr.auth msg) := by
  unfold login
  cases hr0 : env.r0 with
  | none => exact ⟨"Network error during authentication", rfl⟩
  | some r0 =>
    by_cases hst : 400 ≤ r0.status
    · exact ⟨"Network error during authentication", by simp [hst]⟩
    · by_cases hcs : (!pyTruthy (loginCsrf r0.page env.cookies1)) = true
      · exact ⟨"Missing CSRF token (no form, html token or cookie)", by simp [hst, hcs]⟩
      · exact ⟨"Authentication failed: login page or error detected after POST",
          by simp [hst, hcs, hfr, hm]⟩

/-- A login environment whose post-login body still shows an invalid-login
message. -/
def c7Env : LoginEnv :=
  { r0 := some
      { url := "https://portal/", status := 200
        page := { inputs := [{ name := "_csrf", value := some "aaaa1111", hidden := true }]
                  metas := [], forms := [], spans := [], scripts := [], raw := "" } }
    cookies1 := []
    postResp := some
      { url := "https://portal/home", status := 200
        page := { inputs := [], metas := [], forms := [], spans := [], scripts := []
                  raw := "Invalid credentials: Login failed" } }
    landingResp := none
    cookies2 := [] }

/-- Claim C7, witness: a response body containing "invalid" and "login" makes
`login()` fail with `AuthenticationError`. -/
def c7FinalResp : Response :=
  { url := "https://portal/home", status := 200
    page := { inputs := [], metas := [], forms := [], spans := [], scripts := []
              raw := "Invalid credentials: Login failed" } }

theorem c7_login_marker_fails_witness :
    (loginFinalResp c7Env = some c7FinalResp ∧
      loginFailureMarker c7FinalResp.page.raw = true) ∧
    (∃ msg, login c7Env = Except.error (PyErr.auth msg)) :=
  ⟨⟨by decide, by decide⟩,
    c7_login_marker_fails c7Env c7FinalResp (by decide) (by decide)⟩
